import Mathlib

/-!
Verification of the BiteBook backend recipe-import pipeline.

The development shallowly embeds the pipeline code of the repository:
the orchestrating function of src/summarize.py (the one the HTTP endpoint
in src/main.py calls), its near-duplicate in src/recipe-summarizer.py,
the declared pydantic extraction schemas, the lazily initialized database
and storage accessors of src/main.py, and a model of the pruning content
filter configured in src/summarize.py.
-/

namespace BiteBook

/-- JSON values, as produced by the Python json.loads call in
src/summarize.py line 68.  Python None is rendered as null. -/
inductive Json where
  | null : Json
  | bool : Bool → Json
  | num : Int → Json
  | str : String → Json
  | arr : List Json → Json
  | obj : List (String × Json) → Json

/-- Outcome of calling a Python function: a normal return of a
JSON-encodable value, or an exception propagating out uncaught. -/
inductive PyOutcome where
  | ret : Json → PyOutcome
  | raised : String → PyOutcome

/-- The fields of the crawl result object consumed by extract
(src/summarize.py lines 66-74): the crawler call crawler.arun returns an
object with a success flag, the content extracted by the LLM strategy, and
an error message describing a navigation failure. -/
structure CrawlResult where
  success : Bool
  extracted_content : String
  error_message : String
deriving Repr, DecidableEq

/-- Observable effects of one call of the pipeline: the URLs passed to the
crawler navigation call crawler.arun, and the strings passed to
json.loads. -/
structure Trace where
  navigations : List String
  parseCalls : List String
deriving Repr, DecidableEq

/-- Shallow embedding of extract in src/summarize.py (lines 26-74).  The
two external library calls are parameters: arun is the crawler navigation
(crawl4ai), loads is Python json.loads, returning a parsed value or the
message of the ValueError it raises.  The function navigates once to the
URL; on a successful crawl it parses the extracted content and returns the
parsed data (line 72); a parse failure is not caught, so it propagates; on
a failed crawl it only prints the error message and falls off the end of
the function, returning Python None. -/
def extract (loads : String → Except String Json)
    (arun : String → CrawlResult) (url : String) : PyOutcome × Trace :=
  let result := arun url
  if result.success = true then
    match loads result.extracted_content with
    | Except.ok data => (PyOutcome.ret data, ⟨[url], [result.extracted_content]⟩)
    | Except.error e => (PyOutcome.raised e, ⟨[url], [result.extracted_content]⟩)
  else
    (PyOutcome.ret Json.null, ⟨[url], []⟩)

/-- Shallow embedding of extract in src/recipe-summarizer.py (lines
21-67).  Same control flow as extract in src/summarize.py, except that the
success branch only prints the parsed data and never returns it: every
non-raising path returns Python None. -/
def rsExtract (loads : String → Except String Json)
    (arun : String → CrawlResult) (url : String) : PyOutcome × Trace :=
  let result := arun url
  if result.success = true then
    match loads result.extracted_content with
    | Except.ok _ => (PyOutcome.ret Json.null, ⟨[url], [result.extracted_content]⟩)
    | Except.error e => (PyOutcome.raised e, ⟨[url], [result.extracted_content]⟩)
  else
    (PyOutcome.ret Json.null, ⟨[url], []⟩)

/-- An HTTP response as produced by the FastAPI framework for the
import-recipe route: status code, JSON body, and whether the response was
produced by the outermost error middleware because an exception escaped
the application handler uncaught. -/
structure HttpResponse where
  status : Nat
  body : Json
  unhandledException : Bool

/-- Shallow embedding of the POST import-recipe handler root in
src/main.py (lines 634-636): it returns the value of extract directly.
FastAPI serializes a returned value as a 200 JSON response (Python None
becomes null); an exception escaping the handler is turned into a plain
500 by the server error middleware, with no handler-provided body. -/
def root (loads : String → Except String Json)
    (arun : String → CrawlResult) (url : String) : HttpResponse × Trace :=
  let r := extract loads arun url
  match r.1 with
  | PyOutcome.ret v => (⟨200, v, false⟩, r.2)
  | PyOutcome.raised _ => (⟨500, Json.null, true⟩, r.2)

/-- Whether a JSON value is an object with a field named "error"
(the shape a structured failure response would have). -/
def hasErrorField : Json → Bool
  | Json.obj kvs => kvs.any (fun kv => kv.1 == "error")
  | _ => false

/-- Field type in a declared pydantic extraction schema.  The two
extraction modules only use three shapes: a plain string field, a list of
plain strings, and a list of ingredient objects whose fields are all
strings (given by their names). -/
inductive PyTy where
  | pyStr : PyTy
  | pyListStr : PyTy
  | pyListIngredient : List String → PyTy
deriving Repr, DecidableEq

/-- A declared pydantic model: named fields in declaration order. -/
abbrev Schema := List (String × PyTy)

/-- Field names of the Ingredient pydantic model declared in
src/summarize.py lines 17-19: name and amount, both strings. -/
def summarizeIngredientFields : List String := ["name", "amount"]

/-- Field names of the Ingredient strawberry GraphQL type declared in
src/main.py lines 52-55: name and count.  This type belongs to the CRUD
layer, not to either extraction module. -/
def mainIngredientFields : List String := ["name", "count"]

/-- The Recipe extraction schema declared in src/summarize.py lines
21-24 and sent to the LLM extraction strategy (line 33): a recipe name, a
list of Ingredient objects, and a list of instruction strings. -/
def summarizeRecipeSchema : Schema :=
  [("name", PyTy.pyStr),
   ("ingredients", PyTy.pyListIngredient summarizeIngredientFields),
   ("instructions", PyTy.pyListStr)]

/-- The Recipe extraction schema declared in src/recipe-summarizer.py
lines 17-19 and sent to the LLM extraction strategy (line 28): no name
field, and ingredients are a list of plain strings rather than objects. -/
def rsRecipeSchema : Schema :=
  [("ingredients", PyTy.pyListStr),
   ("instructions", PyTy.pyListStr)]

/-- The ingredient-object field names a schema declares for its
ingredients field, or none when the ingredients are not declared as
objects (or there is no ingredients field). -/
def ingredientObjFields (s : Schema) : Option (List String) :=
  match List.lookup ("ingredients") s with
  | some (PyTy.pyListIngredient fs) => some fs
  | _ => none

/-- Whether a JSON value is a string. -/
def isJsonStr : Json → Bool
  | Json.str _ => true
  | _ => false

/-- Whether a JSON value is an object with exactly the given field names,
all holding strings. -/
def isIngredientObj (fs : List String) : Json → Bool
  | Json.obj kvs =>
      fs.all (fun f =>
        match List.lookup f kvs with
        | some v => isJsonStr v
        | none => false)
      && kvs.all (fun kv => fs.contains kv.1)
  | _ => false

/-- Whether a JSON value conforms to a declared field type. -/
def tyCheck : PyTy → Json → Bool
  | PyTy.pyStr, j => isJsonStr j
  | PyTy.pyListStr, Json.arr xs => xs.all isJsonStr
  | PyTy.pyListStr, _ => false
  | PyTy.pyListIngredient fs, Json.arr xs => xs.all (isIngredientObj fs)
  | PyTy.pyListIngredient _, _ => false

/-- Whether a JSON value is an object of exactly the shape a schema
declares: every declared field is present with a conforming value, and no
extra fields appear. -/
def conformsToSchema (s : Schema) : Json → Bool
  | Json.obj kvs =>
      s.all (fun st =>
        match List.lookup st.1 kvs with
        | some v => tyCheck st.2 v
        | none => false)
      && kvs.all (fun kv => s.any (fun st => st.1 == kv.1))
  | _ => false

/-- The response shape claimed for a successful import: a recipe name,
ingredient objects with fields name and count, and instruction strings. -/
def claimedImportSchema : Schema :=
  [("name", PyTy.pyStr),
   ("ingredients", PyTy.pyListIngredient mainIngredientFields),
   ("instructions", PyTy.pyListStr)]

/-- Module-level mutable state of src/main.py: the lazily initialized
database client (line 25) and storage bucket (line 33), plus a supply
counter standing for the distinct client objects the firestore.client and
storage.bucket constructors would produce on each invocation. -/
structure ProcState where
  db_instance : Option Nat
  bucket_instance : Option Nat
  supply : Nat
deriving Repr, DecidableEq

/-- Shallow embedding of get_db in src/main.py (lines 26-30): when the
cached instance is absent, construct a fresh client, cache it and return
it; otherwise return the cached instance unchanged. -/
def get_db (s : ProcState) : Nat × ProcState :=
  match s.db_instance with
  | none => (s.supply, ⟨some s.supply, s.bucket_instance, s.supply + 1⟩)
  | some d => (d, s)

/-- Shallow embedding of get_bucket in src/main.py (lines 34-38),
identical in structure to get_db over its own cache slot. -/
def get_bucket (s : ProcState) : Nat × ProcState :=
  match s.bucket_instance with
  | none => (s.supply, ⟨s.db_instance, some s.supply, s.supply + 1⟩)
  | some b => (b, s)

/-- Results of n successive calls of an accessor, threading the process
state through the calls. -/
def callResults (f : ProcState → Nat × ProcState) : Nat → ProcState → List Nat
  | 0, _ => []
  | n + 1, s => (f s).1 :: callResults f n (f s).2

/-- Modelled from the spec: the pruning content filter implementation
lives in the crawl4ai library, not in this repository; src/summarize.py
lines 44-48 only configure it.  A block-level text node of the rendered
document, carrying its text together with the quantities the density
heuristic of spec section 4.2 measures: the length of the enclosing
markup and the length of the text that sits inside links. -/
structure TextNode where
  text : String
  markupLen : Nat
  linkTextLen : Nat
deriving Repr, DecidableEq

/-- Modelled from the spec: the density score of a node (spec section
4.2), scaled by 1000 — the ratio of text length to enclosing markup,
discounted by the link density of the node. -/
def nodeScore (n : TextNode) : Nat :=
  let t := n.text.length
  let density := 1000 * t / (t + n.markupLen + 1)
  let linkPenalty := 1000 * min n.linkTextLen t / (t + 1)
  density - linkPenalty

/-- The two threshold regimes of spec section 4.2. -/
inductive ThresholdType where
  | static : ThresholdType
  | dynamic : ThresholdType
deriving Repr, DecidableEq

/-- Filter configuration: the threshold (scaled by 1000, so the 0.65 of
src/summarize.py line 46 is 650) and the threshold regime. -/
structure FilterConfig where
  threshold : Nat
  thresholdType : ThresholdType
deriving Repr, DecidableEq

/-- The configuration src/summarize.py lines 44-48 passes to the pruning
content filter: threshold 0.65, dynamic regime. -/
def summarizeFilterCfg : FilterConfig := ⟨650, ThresholdType.dynamic⟩

/-- Modelled from the spec: the effective cutoff.  In the static regime
it is the configured threshold; in the dynamic regime the cutoff adapts
to the score distribution of the document (spec section 4.2), modelled as the
configured threshold applied to the mean node score. -/
def effectiveCutoff (cfg : FilterConfig) (doc : List TextNode) : Nat :=
  match cfg.thresholdType with
  | ThresholdType.static => cfg.threshold
  | ThresholdType.dynamic =>
      cfg.threshold * ((doc.map nodeScore).sum / (doc.length + 1)) / 1000

/-- Concatenation of the texts of the kept nodes into the filtered markdown,
separated by line breaks. -/
def joinTexts : List TextNode → String
  | [] => ""
  | [n] => n.text
  | n :: rest => n.text ++ "\n" ++ joinTexts rest

/-- Whether a string contains a non-whitespace character. -/
def hasNonWs (s : String) : Bool :=
  s.data.any (fun c => !c.isWhitespace)

/-- The highest-scoring node of a list, or none when it is empty. -/
def bestOf : List TextNode → Option TextNode
  | [] => none
  | n :: rest =>
      match bestOf rest with
      | none => some n
      | some m => if nodeScore n < nodeScore m then some m else some n

/-- Modelled from the spec: the fallback node of section 4.2 — the
single highest-scoring node among the nodes that contain any
non-whitespace text, so that the fallback never yields an empty filtered
document while text exists. -/
def bestTextNode (doc : List TextNode) : Option TextNode :=
  bestOf (doc.filter (fun n => hasNonWs n.text))

/-- Modelled from the spec: the pruning content filter of spec section
4.2 (the crawl4ai PruningContentFilter configured in src/summarize.py
lines 44-48 — its implementation is not part of this repository).  Nodes
scoring below the effective cutoff are pruned and the surviving texts
joined; when no node reaches the cutoff, the single highest-scoring
text-bearing node is returned instead of an empty document. -/
def prune_filter (cfg : FilterConfig) (doc : List TextNode) : String :=
  let cutoff := effectiveCutoff cfg doc
  let kept := doc.filter (fun n => cutoff ≤ nodeScore n)
  if kept.isEmpty then
    match bestTextNode doc with
    | some n => n.text
    | none => ""
  else
    joinTexts kept

/-- A stand-in for json.loads restricted to the concrete strings used in
the closed scenarios below, agreeing with Python json.loads on each of
them: json.loads raises ValueError on input that is not valid JSON (the
empty string, the plain sentence reply of the model, prose), parses the
literal digit to a number and the empty array literal to an empty
array. -/
def loadsDemo : String → Except String Json := fun s =>
  if s = "5" then Except.ok (Json.num 5)
  else if s = "[]" then Except.ok (Json.arr [])
  else Except.error ("Expecting value: line 1 column 1 (char 0)")

/-- A crawler oracle for a URL whose DNS resolution fails: crawl4ai
reports the navigation failure as a result with success false and the
browser error message, it does not raise. -/
def dnsFailCrawler : String → CrawlResult := fun _ =>
  ⟨false, "", "net::ERR_NAME_NOT_RESOLVED"⟩

/-- A crawler oracle for a page with no recipe: the crawl succeeds and
the model replies with the literal no-recipe sentence the instruction in
src/recipe-summarizer.py line 30 asks for, which is not valid JSON. -/
def noRecipeCrawler : String → CrawlResult := fun _ =>
  ⟨true, "No recipe data found", ""⟩

/-- A crawler oracle whose successful crawl carries malformed model
output: prose instead of JSON. -/
def proseCrawler : String → CrawlResult := fun _ =>
  ⟨true, "Sorry, I could not find a recipe on this page.", ""⟩

/-- A crawler oracle whose successful crawl carries a bare JSON number —
valid JSON that is nowhere near the declared Recipe shape. -/
def numCrawler : String → CrawlResult := fun _ => ⟨true, "5", ""⟩

/-- A crawler oracle whose successful crawl carries an empty JSON array —
valid JSON not conforming to the declared Recipe shape. -/
def arrCrawler : String → CrawlResult := fun _ => ⟨true, "[]", ""⟩

/-- A string containing a non-whitespace character is not empty. -/
lemma ne_empty_of_hasNonWs {s : String} (h : hasNonWs s = true) : s ≠ "" := by
  intro he
  subst he
  simp [hasNonWs] at h

/-- A node with positive density score has nonempty text. -/
lemma text_ne_empty_of_score_pos {n : TextNode} (h : 0 < nodeScore n) :
    n.text ≠ "" := by
  intro he
  rw [nodeScore] at h
  simp [he] at h

/-- The join of a list containing a node with nonempty text is itself
nonempty. -/
lemma joinTexts_ne_empty {l : List TextNode} {n : TextNode}
    (hn : n ∈ l) (ht : n.text ≠ "") : joinTexts l ≠ "" := by
  match l, hn with
  | [m], hn =>
      have : n = m := by simpa using hn
      subst this
      simpa [joinTexts] using ht
  | a :: b :: t, _ =>
      intro he
      have hlen := congrArg String.length he
      rw [show joinTexts (a :: b :: t) = a.text ++ "\n" ++ joinTexts (b :: t) from rfl,
          String.length_append, String.length_append] at hlen
      have h1 : String.length ("\n") = 1 := rfl
      have h0 : String.length ("") = 0 := rfl
      rw [h1, h0] at hlen
      omega

/-- The best node of a list is a member of it. -/
lemma bestOf_mem : ∀ {l : List TextNode} {m : TextNode},
    bestOf l = some m → m ∈ l := by
  intro l
  induction l with
  | nil => intro m h; simp [bestOf] at h
  | cons a t ih =>
      intro m h
      rw [bestOf] at h
      cases hb : bestOf t with
      | none =>
          rw [hb] at h
          have h2 : a = m := Option.some.inj h
          rw [← h2]
          exact List.mem_cons_self a t
      | some b =>
          rw [hb] at h
          have h2 : (if nodeScore a < nodeScore b then some b else some a)
              = some m := h
          by_cases hc : nodeScore a < nodeScore b
          · rw [if_pos hc] at h2
            rw [← Option.some.inj h2]
            exact List.mem_cons_of_mem a (ih hb)
          · rw [if_neg hc] at h2
            rw [← Option.some.inj h2]
            exact List.mem_cons_self a t

/-- The best node of a nonempty list exists. -/
lemma bestOf_ne_nil : ∀ {l : List TextNode}, l ≠ [] →
    ∃ m, bestOf l = some m := by
  intro l h
  match l with
  | a :: t =>
      rw [bestOf]
      cases hb : bestOf t with
      | none => exact ⟨a, rfl⟩
      | some b =>
          by_cases hc : nodeScore a < nodeScore b
          · exact ⟨b, by rw [show (match some b with
              | none => some a
              | some m => if nodeScore a < nodeScore m then some m else some a)
                = if nodeScore a < nodeScore b then some b else some a from rfl,
              if_pos hc]⟩
          · exact ⟨a, by rw [show (match some b with
              | none => some a
              | some m => if nodeScore a < nodeScore m then some m else some a)
                = if nodeScore a < nodeScore b then some b else some a from rfl,
              if_neg hc]⟩

/-- Once the cache of the database accessor is populated with d, every further
call returns d and leaves the state unchanged. -/
lemma callResults_get_db_cached : ∀ (k : Nat) {s : ProcState} {d : Nat},
    s.db_instance = some d → callResults get_db k s = List.replicate k d := by
  intro k
  induction k with
  | zero => intro s d _; rfl
  | succ k ih =>
      intro s d h
      have hdb : get_db s = (d, s) := by rw [get_db, h]
      rw [callResults, hdb]
      simp [List.replicate]
      exact ih h

/-- Once the cache of the bucket accessor is populated with b, every further
call returns b and leaves the state unchanged. -/
lemma callResults_get_bucket_cached : ∀ (k : Nat) {s : ProcState} {b : Nat},
    s.bucket_instance = some b →
    callResults get_bucket k s = List.replicate k b := by
  intro k
  induction k with
  | zero => intro s b _; rfl
  | succ k ih =>
      intro s b h
      have hbk : get_bucket s = (b, s) := by rw [get_bucket, h]
      rw [callResults, hbk]
      simp [List.replicate]
      exact ih h

/-- On a successful crawl whose extracted content parses, extract returns
the parsed value and records one navigation and one parse call. -/
lemma extract_ok (loads : String → Except String Json)
    (arun : String → CrawlResult) (url : String) (v : Json)
    (hs : (arun url).success = true)
    (hp : loads (arun url).extracted_content = Except.ok v) :
    extract loads arun url
      = (PyOutcome.ret v, ⟨[url], [(arun url).extracted_content]⟩) := by
  rw [extract]
  simp only [hs, if_true, hp]

/-- The extract pipeline navigates exactly once, to the requested URL. -/
lemma extract_navigations (loads : String → Except String Json)
    (arun : String → CrawlResult) (url : String) :
    (extract loads arun url).2.navigations = [url] := by
  rw [extract]
  by_cases hs : (arun url).success = true
  · simp only [hs, if_true]
    cases loads (arun url).extracted_content <;> rfl
  · simp only [hs]
    rfl

/-- On a successful crawl whose extracted content parses, the endpoint
responds 200 with the parsed value as the body. -/
lemma root_ok (loads : String → Except String Json)
    (arun : String → CrawlResult) (url : String) (v : Json)
    (hs : (arun url).success = true)
    (hp : loads (arun url).extracted_content = Except.ok v) :
    (root loads arun url).1 = ⟨200, v, false⟩ := by
  rw [root, extract_ok loads arun url v hs hp]

/-- URL of the DNS-failure scenario. -/
def urlC1 : String := "https://does-not-resolve.example/recipe"

/-- URL of the no-recipe-page scenario. -/
def urlC2 : String := "https://example.com/no-recipe-page"

/-- URL of the prose-reply scenario. -/
def urlC3 : String := "https://example.com/prose-reply"

/-- URL of the number-reply scenario. -/
def urlC4 : String := "https://example.com/number-reply"

/-- URL fed to both extraction modules in the divergence scenario. -/
def urlC5 : String := "https://example.com/shared-input"

/-- URL of the array-reply scenario. -/
def urlC9 : String := "https://example.com/array-reply"

/-- C1: the claim states that a failed fetch yields a RenderError outcome
surfaced by the endpoint as a failure response (error field, 4xx/5xx
status).  On the code, a failed fetch makes extract return Python None and
the endpoint answers HTTP 200 with body null and no error field; only the
second half of the claim holds (nothing is parsed or returned as an
extraction result).  This theorem evaluates the code at the failing
input. -/
theorem C1_render_failure_returns_200_null :
    (extract loadsDemo dnsFailCrawler urlC1).1 = PyOutcome.ret Json.null ∧
    (root loadsDemo dnsFailCrawler urlC1).1.status = 200 ∧
    (root loadsDemo dnsFailCrawler urlC1).1.body = Json.null ∧
    hasErrorField (root loadsDemo dnsFailCrawler urlC1).1.body = false ∧
    (root loadsDemo dnsFailCrawler urlC1).2.parseCalls = [] :=
  ⟨rfl, rfl, rfl, rfl, rfl⟩

/-- C2: the claim states that a pipeline run that finds no extractable
recipe yields the distinguished NO_RECIPE_FOUND sentinel, never an error.
The code has no such sentinel: when the model replies with the literal
no-recipe sentence (as the instruction of src/recipe-summarizer.py line 30
requests), json.loads raises and the exception escapes the endpoint
uncaught as a 500.  This theorem evaluates the code at that input. -/
theorem C2_no_recipe_raises_instead_of_sentinel :
    (extract loadsDemo noRecipeCrawler urlC2).1
      = PyOutcome.raised ("Expecting value: line 1 column 1 (char 0)") ∧
    (root loadsDemo noRecipeCrawler urlC2).1.status = 500 ∧
    (root loadsDemo noRecipeCrawler urlC2).1.unhandledException = true :=
  ⟨rfl, rfl, rfl⟩

/-- C3: the claim states that every exception raised inside the pipeline
(including JSON parsing of the model output) is caught and classified at
the orchestrator boundary.  The code wraps nothing: a json.loads failure
on malformed model output propagates uncaught through the import-recipe
handler.  This theorem evaluates the code at such an input. -/
theorem C3_parse_error_propagates_unhandled :
    (extract loadsDemo proseCrawler urlC3).1
      = PyOutcome.raised ("Expecting value: line 1 column 1 (char 0)") ∧
    (root loadsDemo proseCrawler urlC3).1.unhandledException = true ∧
    (root loadsDemo proseCrawler urlC3).1.status = 500 :=
  ⟨rfl, rfl, rfl⟩

/-- C8: for every import call, the pipeline performs exactly one
navigation attempt, for the given URL, whatever the crawler and parser
do: neither extract nor the endpoint retries a failed render+extract
cycle. -/
theorem C8_single_navigation_no_retry (loads : String → Except String Json)
    (arun : String → CrawlResult) (url : String) :
    (root loads arun url).2.navigations = [url] := by
  have h := extract_navigations loads arun url
  rw [root]
  cases hx : (extract loads arun url).1
  · simp only [hx]
    exact h
  · simp only [hx]
    exact h

/-- C9: on a successful crawl, extract returns exactly the value json.loads
produced from the extracted content of the crawler, with no validation against
the declared Recipe schema — the parsed value is returned whatever shape
it has. -/
theorem C9_returns_parsed_json_unvalidated (loads : String → Except String Json)
    (arun : String → CrawlResult) (url : String) (v : Json)
    (hs : (arun url).success = true)
    (hp : loads (arun url).extracted_content = Except.ok v) :
    (extract loads arun url).1 = PyOutcome.ret v := by
  rw [extract_ok loads arun url v hs hp]

/-- Witness for C9: a successful crawl whose extracted content parses to
an empty JSON array — a value that does not conform to the declared
Recipe schema — is returned as-is. -/
theorem C9_witness :
    (arrCrawler urlC9).success = true ∧
    loadsDemo (arrCrawler urlC9).extracted_content = Except.ok (Json.arr []) ∧
    (extract loadsDemo arrCrawler urlC9).1 = PyOutcome.ret (Json.arr []) ∧
    conformsToSchema summarizeRecipeSchema (Json.arr []) = false :=
  ⟨rfl, rfl,
   C9_returns_parsed_json_unvalidated loadsDemo arrCrawler urlC9 (Json.arr []) rfl rfl,
   rfl⟩

/-- Counterexample to C4: the claim states that every successful import
response has exactly the shape with ingredient objects carrying the keys
name and count.  Here a successful import (HTTP 200) carries a bare JSON
number as the body, which does not conform to that shape: the endpoint
returns the parsed model output without validation, and the declared
extraction schema uses amount, not count. -/
theorem C4_counterexample :
    (root loadsDemo numCrawler urlC4).1.status = 200 ∧
    conformsToSchema claimedImportSchema (root loadsDemo numCrawler urlC4).1.body
      = false :=
  ⟨rfl, rfl⟩

/-- C4 (amended): on a successful import the endpoint responds 200 with
exactly the JSON value parsed from the model output, unvalidated; the
declared extraction schema gives ingredient objects the keys name and
amount, not count. -/
theorem C4_success_response_is_parsed_output
    (loads : String → Except String Json) (arun : String → CrawlResult)
    (url : String) (v : Json)
    (hs : (arun url).success = true)
    (hp : loads (arun url).extracted_content = Except.ok v) :
    (root loads arun url).1.status = 200 ∧
    (root loads arun url).1.body = v ∧
    ingredientObjFields summarizeRecipeSchema = some ["name", "amount"] := by
  rw [root_ok loads arun url v hs hp]
  exact ⟨rfl, rfl, rfl⟩

/-- Witness for C4 (amended): the theorem applied to the number-reply
scenario. -/
theorem C4_witness :
    (root loadsDemo numCrawler urlC4).1.status = 200 ∧
    (root loadsDemo numCrawler urlC4).1.body = Json.num 5 ∧
    ingredientObjFields summarizeRecipeSchema = some ["name", "amount"] :=
  C4_success_response_is_parsed_output loadsDemo numCrawler urlC4 (Json.num 5)
    rfl rfl

/-- Counterexample to C5: the claim states that one extraction module
declares ingredient entries as objects with fields name and count while
the other declares objects with fields name and amount.  In fact neither
extraction module declares the name/count object shape: src/summarize.py
declares name/amount, and src/recipe-summarizer.py declares its
ingredients as a list of plain strings, not objects at all (name/count
exists only in the GraphQL types of src/main.py). -/
theorem C5_counterexample :
    ingredientObjFields summarizeRecipeSchema ≠ some mainIngredientFields ∧
    ingredientObjFields rsRecipeSchema ≠ some mainIngredientFields ∧
    ingredientObjFields rsRecipeSchema = none := by
  refine ⟨?_, ?_, rfl⟩ <;> decide

/-- C5 (amended): the two extraction modules diverge — summarize.py
includes the recipe name and declares Ingredient objects with fields name
and amount, recipe-summarizer.py omits name and declares ingredients as
plain strings — so the schemas differ and the two extract functions
produce different results on the same input under the same model
behaviour. -/
theorem C5_schema_divergence :
    List.lookup ("name") summarizeRecipeSchema = some PyTy.pyStr ∧
    List.lookup ("name") rsRecipeSchema = none ∧
    ingredientObjFields summarizeRecipeSchema = some summarizeIngredientFields ∧
    List.lookup ("ingredients") rsRecipeSchema = some PyTy.pyListStr ∧
    summarizeRecipeSchema ≠ rsRecipeSchema ∧
    (rsExtract loadsDemo numCrawler urlC5).1 ≠ (extract loadsDemo numCrawler urlC5).1 := by
  refine ⟨rfl, rfl, rfl, rfl, by decide, ?_⟩
  have h1 : (rsExtract loadsDemo numCrawler urlC5).1 = PyOutcome.ret Json.null := rfl
  have h2 : (extract loadsDemo numCrawler urlC5).1 = PyOutcome.ret (Json.num 5) := rfl
  rw [h1, h2]
  intro h
  injection h with h3
  exact Json.noConfusion h3

/-- C6: the content filter is deterministic — for a fixed configuration,
two runs on the same document yield identical filtered markdown (the
filter is a pure function of document and configuration). -/
theorem C6_filter_deterministic (cfg : FilterConfig) (doc : List TextNode) :
    prune_filter cfg doc = prune_filter cfg doc := rfl

/-- C7: for every configuration and every document containing any
non-whitespace text, the content filter returns a non-empty string — when
no node reaches the cutoff it still returns the highest-scoring
text-bearing node text. -/
theorem C7_filter_nonempty (cfg : FilterConfig) (doc : List TextNode)
    (h : ∃ n ∈ doc, hasNonWs n.text = true) :
    prune_filter cfg doc ≠ "" := by
  obtain ⟨n0, hmem, hws⟩ := h
  have hn0 : n0.text ≠ "" := ne_empty_of_hasNonWs hws
  rw [prune_filter]
  by_cases hk : (doc.filter fun n => decide (effectiveCutoff cfg doc ≤ nodeScore n)).isEmpty = true
  · simp only [hk, if_true]
    have hc : n0 ∈ doc.filter fun n => hasNonWs n.text :=
      List.mem_filter.mpr ⟨hmem, hws⟩
    obtain ⟨m, hm⟩ := bestOf_ne_nil (List.ne_nil_of_mem hc)
    rw [bestTextNode, hm]
    have hmmem := bestOf_mem hm
    exact ne_empty_of_hasNonWs (List.mem_filter.mp hmmem).2
  · simp only [hk, if_false]
    by_cases hc0 : effectiveCutoff cfg doc = 0
    · have hall : (doc.filter fun n => decide (effectiveCutoff cfg doc ≤ nodeScore n)) = doc := by
        apply List.filter_eq_self.mpr
        intro a _
        rw [hc0]
        exact decide_eq_true (Nat.zero_le _)
      rw [hall]
      exact joinTexts_ne_empty hmem hn0
    · have hne : (doc.filter fun n => decide (effectiveCutoff cfg doc ≤ nodeScore n)) ≠ [] := by
        intro he
        rw [he] at hk
        exact hk rfl
      obtain ⟨x, hx⟩ := List.exists_mem_of_ne_nil _ hne
      have hxp : effectiveCutoff cfg doc ≤ nodeScore x :=
        of_decide_eq_true (List.mem_filter.mp hx).2
      have hxpos : 0 < nodeScore x := Nat.lt_of_lt_of_le (Nat.pos_of_ne_zero hc0) hxp
      exact joinTexts_ne_empty hx (text_ne_empty_of_score_pos hxpos)

/-- A single-node document used as witness input for the filter. -/
def nodeW : TextNode := ⟨"Whisk the matcha.", 4, 0⟩

/-- Witness document for C7. -/
def docW : List TextNode := [nodeW]

/-- Witness for C7: the filter applied with the configuration of
src/summarize.py to a one-node document with real text is non-empty. -/
theorem C7_witness :
    (∃ n ∈ docW, hasNonWs n.text = true) ∧
    prune_filter summarizeFilterCfg docW ≠ "" :=
  ⟨⟨nodeW, by decide, by decide⟩,
   C7_filter_nonempty summarizeFilterCfg docW ⟨nodeW, by decide, by decide⟩⟩

/-- C10: get_db and get_bucket are lazily initialized process-wide
singletons — starting from a process state with empty caches, the first
call constructs the client and every one of the n calls returns that same
instance (the list of n results is n copies of the first result). -/
theorem C10_lazy_singletons (n : Nat) (s : ProcState)
    (hdb : s.db_instance = none) (hbk : s.bucket_instance = none) :
    callResults get_db n s = List.replicate n s.supply ∧
    callResults get_bucket n s = List.replicate n s.supply := by
  constructor
  · cases n with
    | zero => rfl
    | succ k =>
        have hcall : get_db s
            = (s.supply, ⟨some s.supply, s.bucket_instance, s.supply + 1⟩) := by
          rw [get_db, hdb]
        rw [callResults, hcall, List.replicate_succ]
        exact congrArg (List.cons s.supply) (callResults_get_db_cached k rfl)
  · cases n with
    | zero => rfl
    | succ k =>
        have hcall : get_bucket s
            = (s.supply, ⟨s.db_instance, some s.supply, s.supply + 1⟩) := by
          rw [get_bucket, hbk]
        rw [callResults, hcall, List.replicate_succ]
        exact congrArg (List.cons s.supply) (callResults_get_bucket_cached k rfl)

/-- A fresh process state: both caches empty. -/
def procInit : ProcState := ⟨none, none, 7⟩

/-- Witness for C10: three successive calls of each accessor on a fresh
process state all return the client constructed by the first call. -/
theorem C10_witness :
    callResults get_db 3 procInit = List.replicate 3 7 ∧
    callResults get_bucket 3 procInit = List.replicate 3 7 :=
  C10_lazy_singletons 3 procInit rfl rfl

end BiteBook
